import Mathlib

/-!
Verification of the kvmd configuration core: the two-phase config
orchestrator (`kvmd/apps/__init__.py`) and the plugin registry
(`kvmd/plugins/__init__.py`), shallowly embedded in Lean 4.

Raw YAML-like documents are modelled as `RawValue`; a Python `dict` is an
association list of string keys preserving insertion order, as Python
dicts do.
-/

set_option autoImplicit false

namespace Kvmd

/-- A raw (unvalidated) configuration value: scalars, lists, and string-keyed
mappings, mirroring the values `load_yaml_file` / `build_raw_from_options`
produce.  `null` stands for Python `None`.  Floats (only schema defaults use
them) are modelled as rationals. -/
inductive RawValue where
  | null : RawValue
  | bool : Bool → RawValue
  | int : Int → RawValue
  | float : Rat → RawValue
  | str : String → RawValue
  | list : List RawValue → RawValue
  | dict : List (String × RawValue) → RawValue
deriving Repr, Inhabited

/-- Entries of a Python dict (insertion-ordered, unique keys). -/
abbrev Entries := List (String × RawValue)

/-- `d[k]` on a Python dict: first entry with the given key. -/
def lookupVal : Entries → String → Option RawValue
  | [], _ => none
  | (k, v) :: rest, key => if k = key then some v else lookupVal rest key

/-- `d[k] = v` on a Python dict: replaces the value in place if the key is
present (insertion order kept), otherwise appends the new pair.  Keys of a
Python dict are unique, so replacing the first occurrence is exact. -/
def setKey : Entries → String → RawValue → Entries
  | [], k, v => [(k, v)]
  | (k1, v1) :: rest, k, v =>
      if k1 = k then (k, v) :: rest else (k1, v1) :: setKey rest k v

/-- `_merge_dicts(dest, src)` from `kvmd/apps/__init__.py`: for each key of
`src` in order, if the key is present in `dest` and both values are dicts the
merge recurses into them, otherwise `dest[key] = src[key]`. -/
def mergeDicts : Entries → Entries → Entries
  | dest, [] => dest
  | dest, (k, RawValue.dict sd) :: rest =>
    (match lookupVal dest k with
      | some (RawValue.dict dd) =>
        mergeDicts (setKey dest k (RawValue.dict (mergeDicts dd sd))) rest
      | _ => mergeDicts (setKey dest k (RawValue.dict sd)) rest)
  | dest, (k, v) :: rest => mergeDicts (setKey dest k v) rest
termination_by _ src => sizeOf src
decreasing_by all_goals simp_wf <;> omega

/-- The claim-side merge semantics on a single key: recurse when both sides
hold dicts, otherwise the override side wins, and a key absent from the
override keeps the base value. -/
def mergeLook : Option RawValue → Option RawValue → Option RawValue
  | dv, none => dv
  | some (RawValue.dict dd), some (RawValue.dict sd) =>
      some (RawValue.dict (mergeDicts dd sd))
  | _, some sv => some sv

/-- One step of `_merge_dicts` for a single override entry `(k, v)`. -/
def mergeStep (dest : Entries) (k : String) (v : RawValue) : Entries :=
  match lookupVal dest k, v with
  | some (RawValue.dict dd), RawValue.dict sd =>
      setKey dest k (RawValue.dict (mergeDicts dd sd))
  | _, _ => setKey dest k v

/-! ## The plugin registry (`kvmd/plugins/__init__.py`) -/

/-- A leaf schema entry, `Option(default, type=..., only_if=..., unpack_as=...)`
from `kvmd/yamlconf`.  The validator is referenced by name; the validator
functions themselves are an external library. -/
structure OptionSpec where
  default : RawValue
  vname : Option String := none
  only_if : Option String := none
  unpack_as : Option String := none

/-- A node of a config scheme: either a leaf `Option` or a nested section
(dict of named children). -/
inductive SchemeNode where
  | opt : OptionSpec → SchemeNode
  | sec : List (String × SchemeNode) → SchemeNode

/-- A config scheme: a Python dict of named scheme nodes. -/
abbrev Scheme := List (String × SchemeNode)

/-- A plugin class as the registry sees it: its `__module__` string and the
scheme fragment its classmethod `get_plugin_options` returns. -/
structure PluginClass where
  module : String
  plugin_options : Scheme

/-- `BasePlugin` from `kvmd/plugins/__init__.py`: lives in module
`kvmd.plugins` and contributes no options. -/
def BasePlugin : PluginClass :=
  { module := "kvmd.plugins", plugin_options := [] }

/-- `cls.get_plugin_options()`: the scheme fragment a plugin type declares. -/
def get_plugin_options (cls : PluginClass) : Scheme :=
  cls.plugin_options

/-- `name[name.rindex(".") + 1:]`: the suffix after the last dot; `none` models
the `ValueError` that `str.rindex` raises when no dot occurs. -/
def afterLastDot : List Char → Option (List Char)
  | [] => none
  | c :: rest =>
    match afterLastDot rest with
    | some s => some s
    | none => if c = '.' then some rest else none

/-- `cls.get_plugin_name()` from `kvmd/plugins/__init__.py`:
`name = cls.__module__; return name[name.rindex(".") + 1:]`. -/
def get_plugin_name (cls : PluginClass) : Option String :=
  (afterLastDot cls.module.data).map (fun cs => String.mk cs)

/-- Association-list lookup for arbitrary values (Python dict indexing). -/
def alookup {α : Type} : List (String × α) → String → Option α
  | [], _ => none
  | (k, v) :: rest, key => if k = key then some v else alookup rest key

/-- A Python module as `getattr` sees it: its exported class attributes. -/
structure PyModule where
  attrs : List (String × PluginClass)

/-- The import environment: which module paths `importlib.import_module` can
resolve, and to what. -/
structure ImportEnv where
  modules : List (String × PyModule)

/-- `importlib.import_module(path)`: `none` models `ModuleNotFoundError`. -/
def importModule (env : ImportEnv) (path : String) : Option PyModule :=
  alookup env.modules path

/-- `getattr(module, attr)`: `none` models `AttributeError`. -/
def getattr (m : PyModule) (attr : String) : Option PluginClass :=
  alookup m.attrs attr

/-- `"kvmd.plugins.{}.{}".format(sub, name)`. -/
def pluginModulePath (sub name : String) : String :=
  "kvmd.plugins." ++ sub ++ "." ++ name

/-- An ASCII single-quote character, kept out of string literals. -/
def sq : String := String.mk [Char.ofNat 39]

/-- The message of `UnknownPluginError("Unknown plugin \x27%s/%s\x27" % (sub, name))`. -/
def unknownPluginMessage (sub name : String) : String :=
  "Unknown plugin " ++ sq ++ sub ++ "/" ++ name ++ sq

/-- The outcome of `get_plugin_class`: a class, an `UnknownPluginError`, or an
uncaught `AttributeError` escaping from `getattr`. -/
inductive PluginResult where
  | ok : PluginClass → PluginResult
  | unknownPlugin : String → PluginResult
  | attrError : String → PluginResult

/-- Whether the outcome is an `UnknownPluginError`. -/
def PluginResult.isUnknownPlugin : PluginResult → Bool
  | PluginResult.unknownPlugin _ => true
  | _ => false

/-- `get_plugin_class(sub, name)` from `kvmd/plugins/__init__.py`, one uncached
call: import `kvmd.plugins.{sub}.{name}`, turning only `ModuleNotFoundError`
into `UnknownPluginError`, then `getattr(module, "Plugin")`. -/
def get_plugin_class (env : ImportEnv) (sub name : String) : PluginResult :=
  match importModule env (pluginModulePath sub name) with
  | none => PluginResult.unknownPlugin (unknownPluginMessage sub name)
  | some m =>
    match getattr m "Plugin" with
    | some cls => PluginResult.ok cls
    | none => PluginResult.attrError "Plugin"

/-- The `functools.lru_cache` state of `get_plugin_class`: successfully
computed results, keyed by the argument pair (exceptions are not cached). -/
abbrev PluginCache := List ((String × String) × PluginClass)

/-- Lookup in the lru_cache. -/
def cacheLookup : PluginCache → String → String → Option PluginClass
  | [], _, _ => none
  | ((s, n), c) :: rest, sub, name =>
      if s = sub ∧ n = name then some c else cacheLookup rest sub name

/-- `get_plugin_class` as called through its `functools.lru_cache` wrapper:
a cached result is returned as-is, a fresh successful result is stored. -/
def get_plugin_class_cached (env : ImportEnv) (cache : PluginCache)
    (sub name : String) : PluginResult × PluginCache :=
  match cacheLookup cache sub name with
  | some cls => (PluginResult.ok cls, cache)
  | none =>
    match get_plugin_class env sub name with
    | PluginResult.ok cls => (PluginResult.ok cls, ((sub, name), cls) :: cache)
    | r => (r, cache)

/-- An import environment whose `kvmd.plugins.auth.broken` module exists but
exports no `Plugin` symbol. -/
def brokenEnv : ImportEnv :=
  { modules := [("kvmd.plugins.auth.broken", { attrs := [] })] }

/-- An import environment exposing a single well-formed auth plugin. -/
def goodEnv : ImportEnv :=
  { modules := [("kvmd.plugins.auth.htpasswd",
      { attrs := [("Plugin",
          { module := "kvmd.plugins.auth.htpasswd", plugin_options := [] })] })] }

/-! ## The config resolver (`kvmd/yamlconf`, modelled from the spec) -/

/-- The external validator library: validators referenced by name, each
mapping a raw value to a validated value or a `ValidationError` message. -/
def VEnv := String → RawValue → Except String RawValue

/-- Python truthiness of a raw value. -/
def truthy : RawValue → Bool
  | RawValue.null => false
  | RawValue.bool b => b
  | RawValue.int n => if n = 0 then false else true
  | RawValue.float q => if q = 0 then false else true
  | RawValue.str s => if s = "" then false else true
  | RawValue.list xs => if xs.isEmpty then false else true
  | RawValue.dict d => if d.isEmpty then false else true

/-- `str(value)` as `"{}".format` applies it; selector values are strings in
practice, renderings of composite values are nominal. -/
def pyStr : RawValue → String
  | RawValue.null => "None"
  | RawValue.bool b => if b then "True" else "False"
  | RawValue.int n => toString n
  | RawValue.float q => toString q
  | RawValue.str s => s
  | RawValue.list _ => "[]"
  | RawValue.dict _ => "{}"

/-- A resolved configuration tree (the `Section` result of `make_config`). -/
inductive Resolved where
  | val : RawValue → Resolved
  | sec : List (String × Resolved) → Resolved

/-- Resolved-value lookup among already-resolved siblings (sections are not
option values, so an `only_if` reference to one finds nothing). -/
def resolvedGet (acc : List (String × Resolved)) (nm : String) : Option RawValue :=
  match alookup acc nm with
  | some (Resolved.val v) => some v
  | _ => none

/-- Parse an `only_if` predicate string: a leading `"!"` negates. -/
def parsePred (p : String) : Bool × String :=
  match p.data with
  | '!' :: rest => (true, String.mk rest)
  | _ => (false, p)

/-- Modelled from the spec: resolving one leaf `Option` of `kvmd/yamlconf`
(not in the excerpt).  Raw value beats default; an `only_if` predicate over the
named already-resolved sibling decides whether the validator runs; a failing
validator yields the error message, a skipped option a null sentinel. -/
def optionStep (venv : VEnv) (raw : Entries) (acc : List (String × Resolved))
    (k : String) (o : OptionSpec) : Option String × RawValue :=
  let rawv := (lookupVal raw k).getD o.default
  let active :=
    match o.only_if with
    | none => true
    | some p =>
      let neg := (parsePred p).1
      let t :=
        match resolvedGet acc (parsePred p).2 with
        | some v => truthy v
        | none => false
      if neg then !t else t
  if active then
    match o.vname with
    | none => (none, rawv)
    | some vn =>
      match venv vn rawv with
      | Except.ok v => (none, v)
      | Except.error m => (some m, RawValue.null)
  else (none, RawValue.null)

/-- Modelled from the spec: one resolution pass of `kvmd/yamlconf`
(not in the excerpt) over a section of the scheme.  Children are resolved in
declaration order; every validation failure is recorded with its dotted path
and resolution of the remaining siblings and subsections continues. -/
def resolveChildren (venv : VEnv) (raw : Entries) (path : List String) :
    Scheme → List (String × Resolved)
      → List (String × String) × List (String × Resolved)
  | [], acc => ([], acc)
  | (k, SchemeNode.opt o) :: rest, acc =>
    (match optionStep venv raw acc k o with
     | (none, v) => resolveChildren venv raw path rest (acc ++ [(k, Resolved.val v)])
     | (some m, v) =>
       let r := resolveChildren venv raw path rest (acc ++ [(k, Resolved.val v)])
       ((String.intercalate "." (path ++ [k]), m) :: r.1, r.2))
  | (k, SchemeNode.sec sub) :: rest, acc =>
    let subraw :=
      match lookupVal raw k with
      | some (RawValue.dict d) => d
      | _ => []
    let rsub := resolveChildren venv subraw (path ++ [k]) sub []
    let r := resolveChildren venv raw path rest (acc ++ [(k, Resolved.sec rsub.2)])
    (rsub.1 ++ r.1, r.2)
termination_by s _ => sizeOf s
decreasing_by all_goals simp_wf <;> omega

/-- Modelled from the spec: `make_config(raw, scheme)` of `kvmd/yamlconf`
(not in the excerpt) — one full resolution pass; any collected failures are
raised together as a single `ConfigError`. -/
def make_config (venv : VEnv) (raw : Entries) (scheme : Scheme) :
    Except (List (String × String)) Resolved :=
  match resolveChildren venv raw [] scheme [] with
  | ([], res) => Except.ok (Resolved.sec res)
  | (errs, _) => Except.error errs

/-- A validator environment whose `fail` validator rejects everything and
whose other validators accept the raw value unchanged. -/
def venvDemo : VEnv := fun vn v =>
  if vn = "fail" then Except.error "rejected" else Except.ok v

/-- A scheme with two independently invalid leaves in different sections. -/
def demoScheme : Scheme :=
  [("s1", SchemeNode.sec
      [("k1", SchemeNode.opt { default := RawValue.int 1, vname := some "fail" })]),
   ("s2", SchemeNode.sec
      [("k2", SchemeNode.opt { default := RawValue.int 2, vname := some "fail" })])]

/-! ## `_get_config_scheme` (`kvmd/apps/__init__.py`, lines 144-266) -/

/-- The default of the `access_log_format` option; `\x27` quotes appear via
`sq`. -/
def accessLogFormatDefault : String :=
  "[%P / %\x7bX-Real-IP\x7di] " ++ sq ++ "%r" ++ sq
    ++ " => %s; size=%b --- referer=" ++ sq ++ "%\x7bReferer\x7di" ++ sq
    ++ "; user_agent=" ++ sq ++ "%\x7bUser-Agent\x7di" ++ sq

/-- The `auth` subsection of the `kvmd` scheme; the `internal` and `external`
slots are absent until the orchestrator splices them in. -/
def kvmd_auth_scheme : Scheme := [
  ("internal_type", SchemeNode.opt { default := RawValue.str "htpasswd" }),
  ("external_type", SchemeNode.opt { default := RawValue.str "" }),
  ("internal_users", SchemeNode.opt { default := RawValue.list [], vname := some "valid_users_list" })]

/-- The `server` subsection of the `kvmd` scheme. -/
def kvmd_server_scheme : Scheme := [
  ("host", SchemeNode.opt { default := RawValue.str "localhost", vname := some "valid_ip_or_host" }),
  ("port", SchemeNode.opt { default := RawValue.int 0, vname := some "valid_port" }),
  ("unix", SchemeNode.opt { default := RawValue.str "", vname := some "valid_abs_path", only_if := some "!port", unpack_as := some "unix_path" }),
  ("unix_rm", SchemeNode.opt { default := RawValue.bool false, vname := some "valid_bool" }),
  ("unix_mode", SchemeNode.opt { default := RawValue.int 0, vname := some "valid_unix_mode" }),
  ("heartbeat", SchemeNode.opt { default := RawValue.float 3.0, vname := some "valid_float_f01" }),
  ("access_log_format", SchemeNode.opt { default := RawValue.str accessLogFormatDefault })]

/-- The `info` subsection of the `kvmd` scheme. -/
def kvmd_info_scheme : Scheme := [
  ("meta", SchemeNode.opt { default := RawValue.str "/etc/kvmd/meta.yaml", vname := some "valid_abs_path_exists", unpack_as := some "meta_path" }),
  ("extras", SchemeNode.opt { default := RawValue.str "/usr/share/kvmd/extras", vname := some "valid_abs_path_exists", unpack_as := some "extras_path" })]

/-- The `hid` subsection of the `kvmd` scheme. -/
def kvmd_hid_scheme : Scheme := [
  ("reset_pin", SchemeNode.opt { default := RawValue.int (-1), vname := some "valid_gpio_pin" }),
  ("reset_delay", SchemeNode.opt { default := RawValue.float 0.1, vname := some "valid_float_f01" }),
  ("device", SchemeNode.opt { default := RawValue.str "", vname := some "valid_abs_path", unpack_as := some "device_path" }),
  ("speed", SchemeNode.opt { default := RawValue.int 115200, vname := some "valid_tty_speed" }),
  ("read_timeout", SchemeNode.opt { default := RawValue.float 2.0, vname := some "valid_float_f01" }),
  ("read_retries", SchemeNode.opt { default := RawValue.int 10, vname := some "valid_int_f1" }),
  ("common_retries", SchemeNode.opt { default := RawValue.int 100, vname := some "valid_int_f1" }),
  ("retries_delay", SchemeNode.opt { default := RawValue.float 0.1, vname := some "valid_float_f01" }),
  ("noop", SchemeNode.opt { default := RawValue.bool false, vname := some "valid_bool" }),
  ("state_poll", SchemeNode.opt { default := RawValue.float 0.1, vname := some "valid_float_f01" })]

/-- The `atx` subsection of the `kvmd` scheme. -/
def kvmd_atx_scheme : Scheme := [
  ("enabled", SchemeNode.opt { default := RawValue.bool true, vname := some "valid_bool" }),
  ("power_led_pin", SchemeNode.opt { default := RawValue.int (-1), vname := some "valid_gpio_pin", only_if := some "enabled" }),
  ("hdd_led_pin", SchemeNode.opt { default := RawValue.int (-1), vname := some "valid_gpio_pin", only_if := some "enabled" }),
  ("power_led_inverted", SchemeNode.opt { default := RawValue.bool true, vname := some "valid_bool" }),
  ("hdd_led_inverted", SchemeNode.opt { default := RawValue.bool true, vname := some "valid_bool" }),
  ("power_switch_pin", SchemeNode.opt { default := RawValue.int (-1), vname := some "valid_gpio_pin", only_if := some "enabled" }),
  ("reset_switch_pin", SchemeNode.opt { default := RawValue.int (-1), vname := some "valid_gpio_pin", only_if := some "enabled" }),
  ("click_delay", SchemeNode.opt { default := RawValue.float 0.1, vname := some "valid_float_f01" }),
  ("long_click_delay", SchemeNode.opt { default := RawValue.float 5.5, vname := some "valid_float_f01" }),
  ("state_poll", SchemeNode.opt { default := RawValue.float 0.1, vname := some "valid_float_f01" })]

/-- The `msd` subsection of the `kvmd` scheme. -/
def kvmd_msd_scheme : Scheme := [
  ("enabled", SchemeNode.opt { default := RawValue.bool true, vname := some "valid_bool" }),
  ("target_pin", SchemeNode.opt { default := RawValue.int (-1), vname := some "valid_gpio_pin", only_if := some "enabled" }),
  ("reset_pin", SchemeNode.opt { default := RawValue.int (-1), vname := some "valid_gpio_pin", only_if := some "enabled" }),
  ("device", SchemeNode.opt { default := RawValue.str "", vname := some "valid_abs_path", only_if := some "enabled", unpack_as := some "device_path" }),
  ("init_delay", SchemeNode.opt { default := RawValue.float 2.0, vname := some "valid_float_f01" }),
  ("reset_delay", SchemeNode.opt { default := RawValue.float 1.0, vname := some "valid_float_f01" }),
  ("write_meta", SchemeNode.opt { default := RawValue.bool true, vname := some "valid_bool" }),
  ("chunk_size", SchemeNode.opt { default := RawValue.int 65536, vname := some "valid_number_min_1024" })]

/-- The `streamer` subsection of the `kvmd` scheme. -/
def kvmd_streamer_scheme : Scheme := [
  ("cap_pin", SchemeNode.opt { default := RawValue.int (-1), vname := some "valid_gpio_pin_optional" }),
  ("conv_pin", SchemeNode.opt { default := RawValue.int (-1), vname := some "valid_gpio_pin_optional" }),
  ("sync_delay", SchemeNode.opt { default := RawValue.float 1.0, vname := some "valid_float_f01" }),
  ("init_delay", SchemeNode.opt { default := RawValue.float 1.0, vname := some "valid_float_f01" }),
  ("init_restart_after", SchemeNode.opt { default := RawValue.float 0.0, vname := some "valid_number_min_0_float" }),
  ("shutdown_delay", SchemeNode.opt { default := RawValue.float 10.0, vname := some "valid_float_f01" }),
  ("state_poll", SchemeNode.opt { default := RawValue.float 1.0, vname := some "valid_float_f01" }),
  ("quality", SchemeNode.opt { default := RawValue.int 80, vname := some "valid_stream_quality" }),
  ("desired_fps", SchemeNode.opt { default := RawValue.int 0, vname := some "valid_stream_fps" }),
  ("host", SchemeNode.opt { default := RawValue.str "localhost", vname := some "valid_ip_or_host" }),
  ("port", SchemeNode.opt { default := RawValue.int 0, vname := some "valid_port" }),
  ("unix", SchemeNode.opt { default := RawValue.str "", vname := some "valid_abs_path", only_if := some "!port", unpack_as := some "unix_path" }),
  ("timeout", SchemeNode.opt { default := RawValue.float 2.0, vname := some "valid_float_f01" }),
  ("cmd", SchemeNode.opt { default := RawValue.list [RawValue.str "/bin/true"], vname := some "valid_command" })]

/-- The `kvmd` section of the scheme literal of `_get_config_scheme`. -/
def kvmd_scheme : Scheme := [
  ("server", SchemeNode.sec kvmd_server_scheme),
  ("auth", SchemeNode.sec kvmd_auth_scheme),
  ("info", SchemeNode.sec kvmd_info_scheme),
  ("hid", SchemeNode.sec kvmd_hid_scheme),
  ("atx", SchemeNode.sec kvmd_atx_scheme),
  ("msd", SchemeNode.sec kvmd_msd_scheme),
  ("streamer", SchemeNode.sec kvmd_streamer_scheme)]

/-- The `server` subsection of the `ipmi` scheme. -/
def ipmi_server_scheme : Scheme := [
  ("host", SchemeNode.opt { default := RawValue.str "::", vname := some "valid_ip_or_host" }),
  ("port", SchemeNode.opt { default := RawValue.int 623, vname := some "valid_port" }),
  ("timeout", SchemeNode.opt { default := RawValue.float 10.0, vname := some "valid_float_f01" })]

/-- The `kvmd` subsection of the `ipmi` scheme. -/
def ipmi_kvmd_scheme : Scheme := [
  ("host", SchemeNode.opt { default := RawValue.str "localhost", vname := some "valid_ip_or_host", unpack_as := some "kvmd_host" }),
  ("port", SchemeNode.opt { default := RawValue.int 0, vname := some "valid_port", unpack_as := some "kvmd_port" }),
  ("unix", SchemeNode.opt { default := RawValue.str "", vname := some "valid_abs_path", only_if := some "!port", unpack_as := some "kvmd_unix_path" }),
  ("timeout", SchemeNode.opt { default := RawValue.float 5.0, vname := some "valid_float_f01", unpack_as := some "kvmd_timeout" })]

/-- The `auth` subsection of the `ipmi` scheme. -/
def ipmi_auth_scheme : Scheme := [
  ("file", SchemeNode.opt { default := RawValue.str "/etc/kvmd/ipmipasswd", vname := some "valid_abs_path_exists", unpack_as := some "path" })]

/-- The `ipmi` section of the scheme literal of `_get_config_scheme`. -/
def ipmi_scheme : Scheme := [
  ("server", SchemeNode.sec ipmi_server_scheme),
  ("kvmd", SchemeNode.sec ipmi_kvmd_scheme),
  ("auth", SchemeNode.sec ipmi_auth_scheme)]

/-- The full config scheme literal of `_get_config_scheme`. -/
def full_scheme : Scheme := [
  ("logging", SchemeNode.opt { default := RawValue.dict [] }),
  ("kvmd", SchemeNode.sec kvmd_scheme),
  ("ipmi", SchemeNode.sec ipmi_scheme)]

/-- `_get_config_scheme(sections)` from `kvmd/apps/__init__.py`: the full
scheme, filtered to the requested top-level sections when any are given. -/
def _get_config_scheme (sections : List String) : Scheme :=
  if sections.isEmpty then full_scheme
  else full_scheme.filter (fun p => decide (p.1 ∈ sections))

/-! ## The two-phase orchestrator `_init_config` (`kvmd/apps/__init__.py`) -/

/-- `s[k] = node` on a scheme dict (replace in place or append). -/
def setSchemeKey : Scheme → String → SchemeNode → Scheme
  | [], k, node => [(k, node)]
  | (k1, n1) :: rest, k, node =>
      if k1 = k then (k, node) :: rest else (k1, n1) :: setSchemeKey rest k node

/-- Rewrite the section stored under `k` with `f` (the key is present as a
section whenever the code path performs the nested assignment). -/
def updateSchemeKey : Scheme → String → (Scheme → Scheme) → Scheme
  | [], _, _ => []
  | (k1, SchemeNode.sec sub) :: rest, k, f =>
      if k1 = k then (k1, SchemeNode.sec (f sub)) :: rest
      else (k1, SchemeNode.sec sub) :: updateSchemeKey rest k f
  | (k1, n1) :: rest, k, f =>
      if k1 = k then (k1, n1) :: rest else (k1, n1) :: updateSchemeKey rest k f

/-- `scheme[k1][k2][k3] = node`, the in-place splice the orchestrator performs
on the scheme between the two passes. -/
def spliceScheme (s : Scheme) (k1 k2 k3 : String) (node : SchemeNode) : Scheme :=
  updateSchemeKey s k1 (fun s1 => updateSchemeKey s1 k2 (fun s2 => setSchemeKey s2 k3 node))

/-- Nested scheme lookup along a key path. -/
def schemePath : Scheme → List String → Option SchemeNode
  | _, [] => none
  | s, [k] => alookup s k
  | s, k :: rest =>
      match alookup s k with
      | some (SchemeNode.sec sub) => schemePath sub rest
      | _ => none

/-- Attribute access `config.a.b.c` on a resolved section tree. -/
def resolvedPath : Resolved → List String → Option RawValue
  | Resolved.val v, [] => some v
  | Resolved.val _, _ :: _ => none
  | Resolved.sec _, [] => none
  | Resolved.sec entries, k :: rest =>
      match alookup entries k with
      | some r => resolvedPath r rest
      | none => none

/-- Modelled from the spec: `get_auth_service_class(name)` of
`kvmd/plugins/auth` (not in the excerpt) resolves the `"auth"` subsystem
plugin through the registry. -/
def get_auth_service_class (env : ImportEnv) (name : String) : PluginResult :=
  get_plugin_class env "auth" name

/-- Modelled from the spec: `str(ConfigError)` — every failing dotted path
with its message, joined. -/
def configErrorText (errs : List (String × String)) : String :=
  String.intercalate "; " (errs.map (fun e => e.1 ++ ": " ++ e.2))

/-- How `_init_config` ends: a resolved config, `SystemExit("Config error:
...")`, or an unmodelled uncaught exception. -/
inductive InitOutcome where
  | ok : Resolved → InitOutcome
  | exit : String → InitOutcome
  | crash : String → InitOutcome

/-- `raise SystemExit("Config error: %s" % str(err))`. -/
def sysExitMsg (msg : String) : InitOutcome :=
  InitOutcome.exit ("Config error: " ++ msg)

/-- `_init_config(config_path, sections, override_options)` from
`kvmd/apps/__init__.py`.  The YAML document loaded from `config_path` enters
as `fileRaw` and `build_raw_from_options(override_options)` (in
`kvmd/yamlconf`, not in the excerpt) as `overrideRaw`; the import and
validator environments are explicit. -/
def _init_config (env : ImportEnv) (venv : VEnv) (fileRaw : Entries)
    (sections : List String) (overrideRaw : Entries) : InitOutcome :=
  let raw := mergeDicts fileRaw overrideRaw
  let scheme := _get_config_scheme sections
  match make_config venv raw scheme with
  | Except.error errs => sysExitMsg (configErrorText errs)
  | Except.ok config =>
    if "kvmd" ∈ sections then
      match resolvedPath config ["kvmd", "auth", "internal_type"] with
      | none => InitOutcome.crash "AttributeError"
      | some itype =>
        match get_auth_service_class env (pyStr itype) with
        | PluginResult.unknownPlugin msg => sysExitMsg msg
        | PluginResult.attrError a => InitOutcome.crash ("AttributeError: " ++ a)
        | PluginResult.ok icls =>
          let scheme1 := spliceScheme scheme "kvmd" "auth" "internal"
              (SchemeNode.sec (get_plugin_options icls))
          match resolvedPath config ["kvmd", "auth", "external_type"] with
          | none => InitOutcome.crash "AttributeError"
          | some etype =>
            if truthy etype then
              match get_auth_service_class env (pyStr etype) with
              | PluginResult.unknownPlugin msg => sysExitMsg msg
              | PluginResult.attrError a => InitOutcome.crash ("AttributeError: " ++ a)
              | PluginResult.ok ecls =>
                match make_config venv raw (spliceScheme scheme1 "kvmd" "auth" "external"
                    (SchemeNode.sec (get_plugin_options ecls))) with
                | Except.error errs => sysExitMsg (configErrorText errs)
                | Except.ok config2 => InitOutcome.ok config2
            else
              match make_config venv raw scheme1 with
              | Except.error errs => sysExitMsg (configErrorText errs)
              | Except.ok config2 => InitOutcome.ok config2
    else InitOutcome.ok config

/-- The tail of `_init_config`: turn one `make_config` pass outcome into the
function result (`ConfigError` becomes `SystemExit`). -/
def passOutcome (r : Except (List (String × String)) Resolved) : InitOutcome :=
  match r with
  | Except.error errs => sysExitMsg (configErrorText errs)
  | Except.ok config2 => InitOutcome.ok config2

/-! ## Concrete witness material: resolving the default scheme -/

/-- A validator environment that accepts every raw value unchanged. -/
def venvId : VEnv := fun _ v => Except.ok v

/-- `kvmd.server` resolved from an empty document: all defaults. -/
def kvmd_server_resolved : List (String × Resolved) := [
  ("host", Resolved.val (RawValue.str "localhost")),
  ("port", Resolved.val (RawValue.int 0)),
  ("unix", Resolved.val (RawValue.str "")),
  ("unix_rm", Resolved.val (RawValue.bool false)),
  ("unix_mode", Resolved.val (RawValue.int 0)),
  ("heartbeat", Resolved.val (RawValue.float 3.0)),
  ("access_log_format", Resolved.val (RawValue.str accessLogFormatDefault))]

/-- `kvmd.auth` resolved from an empty document. -/
def kvmd_auth_resolved : List (String × Resolved) := [
  ("internal_type", Resolved.val (RawValue.str "htpasswd")),
  ("external_type", Resolved.val (RawValue.str "")),
  ("internal_users", Resolved.val (RawValue.list []))]

/-- `kvmd.info` resolved from an empty document. -/
def kvmd_info_resolved : List (String × Resolved) := [
  ("meta", Resolved.val (RawValue.str "/etc/kvmd/meta.yaml")),
  ("extras", Resolved.val (RawValue.str "/usr/share/kvmd/extras"))]

/-- `kvmd.hid` resolved from an empty document. -/
def kvmd_hid_resolved : List (String × Resolved) := [
  ("reset_pin", Resolved.val (RawValue.int (-1))),
  ("reset_delay", Resolved.val (RawValue.float 0.1)),
  ("device", Resolved.val (RawValue.str "")),
  ("speed", Resolved.val (RawValue.int 115200)),
  ("read_timeout", Resolved.val (RawValue.float 2.0)),
  ("read_retries", Resolved.val (RawValue.int 10)),
  ("common_retries", Resolved.val (RawValue.int 100)),
  ("retries_delay", Resolved.val (RawValue.float 0.1)),
  ("noop", Resolved.val (RawValue.bool false)),
  ("state_poll", Resolved.val (RawValue.float 0.1))]

/-- `kvmd.atx` resolved from an empty document. -/
def kvmd_atx_resolved : List (String × Resolved) := [
  ("enabled", Resolved.val (RawValue.bool true)),
  ("power_led_pin", Resolved.val (RawValue.int (-1))),
  ("hdd_led_pin", Resolved.val (RawValue.int (-1))),
  ("power_led_inverted", Resolved.val (RawValue.bool true)),
  ("hdd_led_inverted", Resolved.val (RawValue.bool true)),
  ("power_switch_pin", Resolved.val (RawValue.int (-1))),
  ("reset_switch_pin", Resolved.val (RawValue.int (-1))),
  ("click_delay", Resolved.val (RawValue.float 0.1)),
  ("long_click_delay", Resolved.val (RawValue.float 5.5)),
  ("state_poll", Resolved.val (RawValue.float 0.1))]

/-- `kvmd.msd` resolved from an empty document. -/
def kvmd_msd_resolved : List (String × Resolved) := [
  ("enabled", Resolved.val (RawValue.bool true)),
  ("target_pin", Resolved.val (RawValue.int (-1))),
  ("reset_pin", Resolved.val (RawValue.int (-1))),
  ("device", Resolved.val (RawValue.str "")),
  ("init_delay", Resolved.val (RawValue.float 2.0)),
  ("reset_delay", Resolved.val (RawValue.float 1.0)),
  ("write_meta", Resolved.val (RawValue.bool true)),
  ("chunk_size", Resolved.val (RawValue.int 65536))]

/-- `kvmd.streamer` resolved from an empty document. -/
def kvmd_streamer_resolved : List (String × Resolved) := [
  ("cap_pin", Resolved.val (RawValue.int (-1))),
  ("conv_pin", Resolved.val (RawValue.int (-1))),
  ("sync_delay", Resolved.val (RawValue.float 1.0)),
  ("init_delay", Resolved.val (RawValue.float 1.0)),
  ("init_restart_after", Resolved.val (RawValue.float 0.0)),
  ("shutdown_delay", Resolved.val (RawValue.float 10.0)),
  ("state_poll", Resolved.val (RawValue.float 1.0)),
  ("quality", Resolved.val (RawValue.int 80)),
  ("desired_fps", Resolved.val (RawValue.int 0)),
  ("host", Resolved.val (RawValue.str "localhost")),
  ("port", Resolved.val (RawValue.int 0)),
  ("unix", Resolved.val (RawValue.str "")),
  ("timeout", Resolved.val (RawValue.float 2.0)),
  ("cmd", Resolved.val (RawValue.list [RawValue.str "/bin/true"]))]

/-- The whole `kvmd` section resolved from an empty document. -/
def kvmd_resolved : List (String × Resolved) := [
  ("server", Resolved.sec kvmd_server_resolved),
  ("auth", Resolved.sec kvmd_auth_resolved),
  ("info", Resolved.sec kvmd_info_resolved),
  ("hid", Resolved.sec kvmd_hid_resolved),
  ("atx", Resolved.sec kvmd_atx_resolved),
  ("msd", Resolved.sec kvmd_msd_resolved),
  ("streamer", Resolved.sec kvmd_streamer_resolved)]

/-- The resolved tree of pass 1 over an empty document with section `kvmd`. -/
def demoConfig : Resolved := Resolved.sec [("kvmd", Resolved.sec kvmd_resolved)]

/-- The plugin class exported by the demo `kvmd.plugins.auth.htpasswd`. -/
def htpasswdPlugin : PluginClass :=
  { module := "kvmd.plugins.auth.htpasswd", plugin_options := [] }

/-! ## Theorems -/

theorem lookupVal_eq_none (l : Entries) (k : String) (h : k ∉ l.map Prod.fst) :
    lookupVal l k = none := by
  induction l with
  | nil => rfl
  | cons p rest ih =>
    obtain ⟨k1, v1⟩ := p
    simp only [List.map_cons, List.mem_cons, not_or] at h
    simp only [lookupVal]
    rw [if_neg (fun hh => h.1 hh.symm), ih h.2]

theorem lookupVal_setKey (l : Entries) (k : String) (v : RawValue) (key : String) :
    lookupVal (setKey l k v) key = if key = k then some v else lookupVal l key := by
  induction l with
  | nil =>
    by_cases h : key = k
    · subst h; simp [setKey, lookupVal]
    · simp [setKey, lookupVal, h, Ne.symm h]
  | cons p rest ih =>
    obtain ⟨k1, v1⟩ := p
    by_cases h1 : k1 = k
    · subst h1
      by_cases h2 : key = k1
      · subst h2; simp [setKey, lookupVal]
      · simp [setKey, lookupVal, h2, Ne.symm h2]
    · by_cases h2 : key = k1
      · subst h2
        have hkk : ¬key = k := fun hh => h1 hh
        simp [setKey, lookupVal, h1, hkk]
      · simp [setKey, lookupVal, h1, h2, Ne.symm h2, ih]

theorem mergeDicts_cons (dest : Entries) (k : String) (v : RawValue) (rest : Entries) :
    mergeDicts dest ((k, v) :: rest) = mergeDicts (mergeStep dest k v) rest := by
  cases v <;> simp only [mergeDicts] <;> unfold mergeStep <;>
    cases hdk : lookupVal dest k <;>
    first
      | rfl
      | (rename_i w; cases w <;> rfl)

theorem lookupVal_mergeStep (dest : Entries) (k : String) (v : RawValue) (key : String) :
    lookupVal (mergeStep dest k v) key
      = if key = k then mergeLook (lookupVal dest k) (some v) else lookupVal dest key := by
  unfold mergeStep
  cases hdk : lookupVal dest k with
  | none => cases v <;> simp [lookupVal_setKey, mergeLook]
  | some w => cases w <;> cases v <;> simp [lookupVal_setKey, mergeLook]

theorem lookupVal_mergeDicts (src : Entries) :
    ∀ (dest : Entries) (key : String), (src.map Prod.fst).Nodup →
      lookupVal (mergeDicts dest src) key
        = mergeLook (lookupVal dest key) (lookupVal src key) := by
  induction src with
  | nil => intro dest key _; simp [mergeDicts, mergeLook, lookupVal]
  | cons p rest ih =>
    obtain ⟨k, v⟩ := p
    intro dest key hnd
    simp only [List.map_cons, List.nodup_cons] at hnd
    obtain ⟨hk, hrest⟩ := hnd
    rw [mergeDicts_cons, ih _ _ hrest, lookupVal_mergeStep]
    by_cases hkey : key = k
    · subst hkey
      rw [lookupVal_eq_none rest key hk]
      simp [lookupVal, mergeLook]
    · simp only [if_neg hkey, lookupVal]
      rw [if_neg (fun hh => hkey hh.symm)]

/-- C1: `_merge_dicts` deep-merges: a key mapped to dicts on both sides is
merged recursively, otherwise the override value replaces the base value
entirely (a list is replaced wholesale), keys only in the base keep their
values; the spec examples compute as stated. -/
theorem merge_dicts_deep_merge :
    (∀ (dest src : Entries) (key : String), (src.map Prod.fst).Nodup →
        lookupVal (mergeDicts dest src) key
          = mergeLook (lookupVal dest key) (lookupVal src key))
    ∧ mergeDicts
        [("a", RawValue.dict [("x", RawValue.int 1), ("y", RawValue.int 2)])]
        [("a", RawValue.dict [("x", RawValue.int 9)])]
        = [("a", RawValue.dict [("x", RawValue.int 9), ("y", RawValue.int 2)])]
    ∧ mergeDicts
        [("a", RawValue.list [RawValue.int 1, RawValue.int 2])]
        [("a", RawValue.list [RawValue.int 3])]
        = [("a", RawValue.list [RawValue.int 3])] :=
  ⟨fun dest src key h => lookupVal_mergeDicts src dest key h,
   by simp [mergeDicts, lookupVal, setKey],
   by simp [mergeDicts, lookupVal, setKey]⟩

theorem merge_dicts_deep_merge_witness :
    (([("b", RawValue.int 7)] : Entries).map Prod.fst).Nodup
    ∧ lookupVal (mergeDicts [("b", RawValue.int 1)] [("b", RawValue.int 7)]) "b"
        = mergeLook (lookupVal [("b", RawValue.int 1)] "b")
            (lookupVal [("b", RawValue.int 7)] "b") :=
  ⟨by simp, merge_dicts_deep_merge.1 [("b", RawValue.int 1)] [("b", RawValue.int 7)] "b" (by simp)⟩

theorem afterLastDot_eq_none (l : List Char) (h : '.' ∉ l) : afterLastDot l = none := by
  induction l with
  | nil => rfl
  | cons c rest ih =>
    simp only [List.mem_cons, not_or] at h
    rw [afterLastDot, ih h.2]
    exact if_neg (fun hh => h.1 hh.symm)

theorem afterLastDot_append (pre suf : List Char) (h : '.' ∉ suf) :
    afterLastDot (pre ++ '.' :: suf) = some suf := by
  induction pre with
  | nil => simp [afterLastDot, afterLastDot_eq_none suf h]
  | cons c pre ih => simp [afterLastDot, ih]

/-- C7: `get_plugin_name` returns the text of the module namespace after its
final dot. -/
theorem get_plugin_name_last_segment (cls : PluginClass) (pre suf : List Char)
    (hmod : cls.module.data = pre ++ '.' :: suf) (hnd : '.' ∉ suf) :
    get_plugin_name cls = some (String.mk suf) := by
  rw [get_plugin_name, hmod, afterLastDot_append pre suf hnd]
  rfl

theorem get_plugin_name_last_segment_witness :
    ("kvmd.plugins.auth.htpasswd".data
        = "kvmd.plugins.auth".data ++ '.' :: "htpasswd".data)
    ∧ '.' ∉ "htpasswd".data
    ∧ get_plugin_name { module := "kvmd.plugins.auth.htpasswd", plugin_options := [] }
        = some (String.mk "htpasswd".data) :=
  ⟨rfl, by decide,
   get_plugin_name_last_segment
     { module := "kvmd.plugins.auth.htpasswd", plugin_options := [] }
     "kvmd.plugins.auth".data "htpasswd".data rfl (by decide)⟩

/-- C8: the base (non-plugin) type contributes an empty options fragment. -/
theorem base_plugin_options_empty : get_plugin_options BasePlugin = [] := rfl

/-- C2 counterexample: on a module that is found but malformed (no `Plugin`
symbol), `get_plugin_class` lets the raw `AttributeError` escape instead of
raising `UnknownPluginError`. -/
theorem get_plugin_class_malformed_counterexample :
    get_plugin_class brokenEnv "auth" "broken" = PluginResult.attrError "Plugin"
    ∧ (get_plugin_class brokenEnv "auth" "broken").isUnknownPlugin = false :=
  ⟨rfl, rfl⟩

/-- C2 (amended): a missing plugin module is normalized to
`UnknownPluginError`, but a module that is found yet lacks the conventional
`Plugin` symbol raises the raw attribute-lookup error. -/
theorem get_plugin_class_error_paths (env : ImportEnv) (sub name : String) :
    (importModule env (pluginModulePath sub name) = none →
      get_plugin_class env sub name
        = PluginResult.unknownPlugin (unknownPluginMessage sub name))
    ∧ (∀ m, importModule env (pluginModulePath sub name) = some m →
        getattr m "Plugin" = none →
        get_plugin_class env sub name = PluginResult.attrError "Plugin") := by
  constructor
  · intro h; rw [get_plugin_class, h]
  · intro m hm ha; rw [get_plugin_class, hm]; simp [ha]

theorem get_plugin_class_error_paths_witness :
    importModule brokenEnv (pluginModulePath "auth" "missing") = none
    ∧ get_plugin_class brokenEnv "auth" "missing"
        = PluginResult.unknownPlugin (unknownPluginMessage "auth" "missing") :=
  ⟨rfl, (get_plugin_class_error_paths brokenEnv "auth" "missing").1 rfl⟩

/-- C3: lookup is memoized — after a successful call, a second call with the
identical pair returns the identical cached class and leaves the cache
untouched; an unregistered pair yields an `UnknownPluginError` whose message
names that exact `sub/name` pair. -/
theorem get_plugin_class_memoized (env : ImportEnv) (cache : PluginCache)
    (sub name : String) :
    (∀ cls cache2,
      get_plugin_class_cached env cache sub name = (PluginResult.ok cls, cache2) →
      get_plugin_class_cached env cache2 sub name = (PluginResult.ok cls, cache2))
    ∧ (cacheLookup cache sub name = none →
       importModule env (pluginModulePath sub name) = none →
       get_plugin_class_cached env cache sub name
        = (PluginResult.unknownPlugin (unknownPluginMessage sub name), cache)) := by
  constructor
  · intro cls cache2 h
    rw [get_plugin_class_cached] at h
    cases hc : cacheLookup cache sub name with
    | some c =>
      rw [hc] at h
      obtain ⟨h1, h2⟩ := Prod.mk.injEq .. ▸ h
      cases h1; cases h2
      rw [get_plugin_class_cached, hc]
    | none =>
      rw [hc] at h
      cases hg : get_plugin_class env sub name with
      | ok c =>
        rw [hg] at h
        obtain ⟨h1, h2⟩ := Prod.mk.injEq .. ▸ h
        cases h1; cases h2
        rw [get_plugin_class_cached]
        simp [cacheLookup]
      | unknownPlugin msg => rw [hg] at h; cases h
      | attrError a => rw [hg] at h; cases h
  · intro hc hm
    rw [get_plugin_class_cached, hc, get_plugin_class, hm]

theorem get_plugin_class_memoized_witness :
    get_plugin_class_cached goodEnv [] "auth" "htpasswd"
      = (PluginResult.ok
          { module := "kvmd.plugins.auth.htpasswd", plugin_options := [] },
         [(("auth", "htpasswd"),
           { module := "kvmd.plugins.auth.htpasswd", plugin_options := [] })])
    ∧ get_plugin_class_cached goodEnv
        [(("auth", "htpasswd"),
          { module := "kvmd.plugins.auth.htpasswd", plugin_options := [] })]
        "auth" "htpasswd"
      = (PluginResult.ok
          { module := "kvmd.plugins.auth.htpasswd", plugin_options := [] },
         [(("auth", "htpasswd"),
           { module := "kvmd.plugins.auth.htpasswd", plugin_options := [] })]) :=
  ⟨rfl,
   (get_plugin_class_memoized goodEnv [] "auth" "htpasswd").1
     { module := "kvmd.plugins.auth.htpasswd", plugin_options := [] }
     [(("auth", "htpasswd"),
       { module := "kvmd.plugins.auth.htpasswd", plugin_options := [] })]
     rfl⟩

theorem resolveChildren_append (venv : VEnv) (raw : Entries) (path : List String) :
    ∀ (s1 s2 : Scheme) (acc : List (String × Resolved)),
      resolveChildren venv raw path (s1 ++ s2) acc
        = ((resolveChildren venv raw path s1 acc).1
             ++ (resolveChildren venv raw path s2
                   (resolveChildren venv raw path s1 acc).2).1,
           (resolveChildren venv raw path s2
               (resolveChildren venv raw path s1 acc).2).2) := by
  intro s1
  induction s1 with
  | nil => intro s2 acc; simp [resolveChildren]
  | cons hd tl ih =>
    obtain ⟨k, node⟩ := hd
    intro s2 acc
    cases node with
    | opt o =>
      rcases hstep : optionStep venv raw acc k o with ⟨merr, v⟩
      cases merr with
      | none =>
        simp only [List.cons_append, resolveChildren, hstep]
        exact ih s2 _
      | some m =>
        simp only [List.cons_append, resolveChildren, hstep]
        rw [ih s2 _]
    | sec sub =>
      simp only [List.cons_append, resolveChildren]
      rw [ih s2 _]
      simp

/-- C9: one resolution pass aggregates every leaf failure: the error list of
concatenated sibling groups is the concatenation of their error lists (no
stop at the first failure), and whenever two or more failures are collected
`make_config` fails with a single `ConfigError` carrying the entire list. -/
theorem make_config_aggregates_failures (venv : VEnv) (raw : Entries) :
    (∀ (s1 s2 : Scheme) (path : List String) (acc : List (String × Resolved)),
        (resolveChildren venv raw path (s1 ++ s2) acc).1
          = (resolveChildren venv raw path s1 acc).1
              ++ (resolveChildren venv raw path s2
                    (resolveChildren venv raw path s1 acc).2).1)
    ∧ (∀ scheme : Scheme, 2 ≤ (resolveChildren venv raw [] scheme []).1.length →
        make_config venv raw scheme
          = Except.error (resolveChildren venv raw [] scheme []).1) := by
  constructor
  · intro s1 s2 path acc
    rw [resolveChildren_append venv raw path s1 s2 acc]
  · intro scheme h
    unfold make_config
    cases hr : resolveChildren venv raw [] scheme [] with
    | mk errs res =>
      rw [hr] at h
      cases errs with
      | nil => simp at h
      | cons e es => simp

theorem make_config_aggregates_failures_witness :
    2 ≤ (resolveChildren venvDemo [] [] demoScheme []).1.length
    ∧ make_config venvDemo [] demoScheme
        = Except.error (resolveChildren venvDemo [] [] demoScheme []).1 :=
  ⟨by simp [resolveChildren, optionStep, demoScheme, venvDemo, lookupVal],
   (make_config_aggregates_failures venvDemo []).2 demoScheme
     (by simp [resolveChildren, optionStep, demoScheme, venvDemo, lookupVal])⟩

theorem alookup_filter_mem {α : Type} (l : List (String × α))
    (sections : List String) (k : String) :
    alookup (l.filter (fun p => decide (p.1 ∈ sections))) k
      = if k ∈ sections then alookup l k else none := by
  induction l with
  | nil => simp [alookup]
  | cons p rest ih =>
    obtain ⟨k1, v1⟩ := p
    by_cases h1 : k1 ∈ sections
    · by_cases h2 : k1 = k
      · subst h2; simp [List.filter_cons, h1, alookup]
      · simp [List.filter_cons, h1, alookup, h2, ih]
    · by_cases h2 : k1 = k
      · subst h2; simp [List.filter_cons, h1, alookup, ih]
      · simp [List.filter_cons, h1, alookup, h2, ih]

/-- C10: with a non-empty section list `_get_config_scheme` returns exactly
the top-level entries whose key is listed (sub-schemas unchanged), with an
empty list the full scheme, whose top-level keys are `logging`, `kvmd`,
`ipmi`. -/
theorem get_config_scheme_sections :
    _get_config_scheme [] = full_scheme
    ∧ full_scheme.map Prod.fst = ["logging", "kvmd", "ipmi"]
    ∧ (∀ (sections : List String) (k : String), sections ≠ [] →
        alookup (_get_config_scheme sections) k
          = if k ∈ sections then alookup full_scheme k else none) := by
  refine ⟨rfl, rfl, ?_⟩
  intro sections k hne
  rw [_get_config_scheme, if_neg (by simp [hne])]
  exact alookup_filter_mem full_scheme sections k

theorem get_config_scheme_sections_witness :
    (["kvmd"] : List String) ≠ []
    ∧ alookup (_get_config_scheme ["kvmd"]) "logging"
        = if "logging" ∈ (["kvmd"] : List String)
          then alookup full_scheme "logging" else none :=
  ⟨by simp, get_config_scheme_sections.2.2 ["kvmd"] "logging" (by simp)⟩

theorem alookup_setSchemeKey (l : Scheme) (k : String) (node : SchemeNode) (key : String) :
    alookup (setSchemeKey l k node) key
      = if key = k then some node else alookup l key := by
  induction l with
  | nil =>
    by_cases h : key = k
    · subst h; simp [setSchemeKey, alookup]
    · simp [setSchemeKey, alookup, h, Ne.symm h]
  | cons p rest ih =>
    obtain ⟨k1, n1⟩ := p
    by_cases h1 : k1 = k
    · subst h1
      by_cases h2 : key = k1
      · subst h2; simp [setSchemeKey, alookup]
      · simp [setSchemeKey, alookup, h2, Ne.symm h2]
    · by_cases h2 : key = k1
      · subst h2
        simp [setSchemeKey, alookup, h1]
      · simp [setSchemeKey, alookup, h1, h2, Ne.symm h2, ih]

theorem alookup_updateSchemeKey (l : Scheme) (k : String) (f : Scheme → Scheme)
    (key : String) :
    alookup (updateSchemeKey l k f) key
      = if key = k then
          (match alookup l k with
           | some (SchemeNode.sec sub) => some (SchemeNode.sec (f sub))
           | other => other)
        else alookup l key := by
  induction l with
  | nil => by_cases h : key = k <;> simp [updateSchemeKey, alookup, h]
  | cons p rest ih =>
    obtain ⟨k1, n1⟩ := p
    cases n1 with
    | sec sub =>
      by_cases h1 : k1 = k
      · subst h1
        by_cases h2 : key = k1
        · subst h2; simp [updateSchemeKey, alookup]
        · simp [updateSchemeKey, alookup, h2, Ne.symm h2]
      · by_cases h2 : key = k1
        · subst h2; simp [updateSchemeKey, alookup, h1]
        · simp [updateSchemeKey, alookup, h1, h2, Ne.symm h2, ih]
    | opt o =>
      by_cases h1 : k1 = k
      · subst h1
        by_cases h2 : key = k1
        · subst h2; simp [updateSchemeKey, alookup]
        · simp [updateSchemeKey, alookup, h2, Ne.symm h2]
      · by_cases h2 : key = k1
        · subst h2; simp [updateSchemeKey, alookup, h1]
        · simp [updateSchemeKey, alookup, h1, h2, Ne.symm h2, ih]

theorem schemePath_splice (sc sub1 sub2 : Scheme) (k1 k2 k3 key : String)
    (node : SchemeNode)
    (h1 : alookup sc k1 = some (SchemeNode.sec sub1))
    (h2 : alookup sub1 k2 = some (SchemeNode.sec sub2)) :
    schemePath (spliceScheme sc k1 k2 k3 node) [k1, k2, key]
      = alookup (setSchemeKey sub2 k3 node) key := by
  simp [spliceScheme, schemePath, alookup_updateSchemeKey, h1, h2]

theorem alookup_scheme_sections (sections : List String) (hne : sections ≠ [])
    (k : String) :
    alookup (_get_config_scheme sections) k
      = if k ∈ sections then alookup full_scheme k else none := by
  rw [_get_config_scheme, if_neg (by simp [hne])]
  exact alookup_filter_mem full_scheme sections k

/-- C4: within the two-phase orchestration (the `"kvmd"` branch), the
internal auth selector's plugin options are always spliced into the schema;
the external selector's options are spliced only when the resolved
`external_type` is non-empty, and with an empty selector the `external` slot
stays absent so pass 2 validates nothing extra there. -/
theorem init_config_selector_splice
    (env : ImportEnv) (venv : VEnv) (fileRaw overrideRaw : Entries)
    (sections : List String) (config : Resolved) (itype etype : RawValue)
    (icls : PluginClass)
    (hk : "kvmd" ∈ sections)
    (h1 : make_config venv (mergeDicts fileRaw overrideRaw) (_get_config_scheme sections)
            = Except.ok config)
    (hit : resolvedPath config ["kvmd", "auth", "internal_type"] = some itype)
    (hic : get_auth_service_class env (pyStr itype) = PluginResult.ok icls)
    (het : resolvedPath config ["kvmd", "auth", "external_type"] = some etype) :
    schemePath (spliceScheme (_get_config_scheme sections) "kvmd" "auth" "internal"
        (SchemeNode.sec (get_plugin_options icls))) ["kvmd", "auth", "internal"]
      = some (SchemeNode.sec (get_plugin_options icls))
    ∧ (truthy etype = false →
        schemePath (spliceScheme (_get_config_scheme sections) "kvmd" "auth" "internal"
            (SchemeNode.sec (get_plugin_options icls))) ["kvmd", "auth", "external"]
          = none
        ∧ _init_config env venv fileRaw sections overrideRaw
            = passOutcome (make_config venv (mergeDicts fileRaw overrideRaw)
                (spliceScheme (_get_config_scheme sections) "kvmd" "auth" "internal"
                  (SchemeNode.sec (get_plugin_options icls)))))
    ∧ (∀ ecls : PluginClass, truthy etype = true →
        get_auth_service_class env (pyStr etype) = PluginResult.ok ecls →
        schemePath (spliceScheme (spliceScheme (_get_config_scheme sections) "kvmd" "auth"
              "internal" (SchemeNode.sec (get_plugin_options icls)))
            "kvmd" "auth" "external" (SchemeNode.sec (get_plugin_options ecls)))
            ["kvmd", "auth", "internal"]
          = some (SchemeNode.sec (get_plugin_options icls))
        ∧ schemePath (spliceScheme (spliceScheme (_get_config_scheme sections) "kvmd" "auth"
              "internal" (SchemeNode.sec (get_plugin_options icls)))
            "kvmd" "auth" "external" (SchemeNode.sec (get_plugin_options ecls)))
            ["kvmd", "auth", "external"]
          = some (SchemeNode.sec (get_plugin_options ecls))
        ∧ _init_config env venv fileRaw sections overrideRaw
            = passOutcome (make_config venv (mergeDicts fileRaw overrideRaw)
                (spliceScheme (spliceScheme (_get_config_scheme sections) "kvmd" "auth"
                    "internal" (SchemeNode.sec (get_plugin_options icls)))
                  "kvmd" "auth" "external" (SchemeNode.sec (get_plugin_options ecls))))) := by
  have hne : sections ≠ [] := List.ne_nil_of_mem hk
  have hbase : alookup (_get_config_scheme sections) "kvmd"
      = some (SchemeNode.sec kvmd_scheme) := by
    rw [alookup_scheme_sections sections hne, if_pos hk]; rfl
  have hauth : alookup kvmd_scheme "auth" = some (SchemeNode.sec kvmd_auth_scheme) := rfl
  have hsp1 : ∀ key : String,
      schemePath (spliceScheme (_get_config_scheme sections) "kvmd" "auth" "internal"
          (SchemeNode.sec (get_plugin_options icls))) ["kvmd", "auth", key]
        = alookup (setSchemeKey kvmd_auth_scheme "internal"
            (SchemeNode.sec (get_plugin_options icls))) key :=
    fun key => schemePath_splice _ kvmd_scheme kvmd_auth_scheme "kvmd" "auth" "internal"
      key _ hbase hauth
  have hbase1 : alookup (spliceScheme (_get_config_scheme sections) "kvmd" "auth" "internal"
        (SchemeNode.sec (get_plugin_options icls))) "kvmd"
      = some (SchemeNode.sec (updateSchemeKey kvmd_scheme "auth"
          (fun s2 => setSchemeKey s2 "internal"
            (SchemeNode.sec (get_plugin_options icls))))) := by
    simp [spliceScheme, alookup_updateSchemeKey, hbase]
  have hauth1 : alookup (updateSchemeKey kvmd_scheme "auth"
        (fun s2 => setSchemeKey s2 "internal"
          (SchemeNode.sec (get_plugin_options icls)))) "auth"
      = some (SchemeNode.sec (setSchemeKey kvmd_auth_scheme "internal"
          (SchemeNode.sec (get_plugin_options icls)))) := by
    simp [alookup_updateSchemeKey, hauth]
  refine ⟨?_, ?_, ?_⟩
  · rw [hsp1 "internal", alookup_setSchemeKey]
    simp
  · intro hF
    constructor
    · rw [hsp1 "external", alookup_setSchemeKey]
      simp [kvmd_auth_scheme, alookup]
    · unfold _init_config
      simp only [h1, hk, if_true, hit, hic, het, hF, Bool.false_eq_true, if_false]
      cases make_config venv (mergeDicts fileRaw overrideRaw)
          (spliceScheme (_get_config_scheme sections) "kvmd" "auth" "internal"
            (SchemeNode.sec (get_plugin_options icls))) <;> rfl
  · intro ecls hT hec
    have hsp2 : ∀ key : String,
        schemePath (spliceScheme (spliceScheme (_get_config_scheme sections) "kvmd" "auth"
              "internal" (SchemeNode.sec (get_plugin_options icls)))
            "kvmd" "auth" "external" (SchemeNode.sec (get_plugin_options ecls)))
            ["kvmd", "auth", key]
          = alookup (setSchemeKey (setSchemeKey kvmd_auth_scheme "internal"
              (SchemeNode.sec (get_plugin_options icls))) "external"
              (SchemeNode.sec (get_plugin_options ecls))) key :=
      fun key => schemePath_splice _ _ _ "kvmd" "auth" "external" key _ hbase1 hauth1
    refine ⟨?_, ?_, ?_⟩
    · rw [hsp2 "internal", alookup_setSchemeKey, alookup_setSchemeKey]
      simp
    · rw [hsp2 "external", alookup_setSchemeKey]
      simp
    · unfold _init_config
      simp only [h1, hk, if_true, hit, hic, het, hT, hec]
      cases make_config venv (mergeDicts fileRaw overrideRaw)
          (spliceScheme (spliceScheme (_get_config_scheme sections) "kvmd" "auth"
              "internal" (SchemeNode.sec (get_plugin_options icls)))
            "kvmd" "auth" "external" (SchemeNode.sec (get_plugin_options ecls))) <;> rfl

theorem parsePred_not_port : parsePred "!port" = (true, "port") := rfl

theorem parsePred_enabled : parsePred "enabled" = (false, "enabled") := rfl

theorem resolve_kvmd_server :
    resolveChildren venvId [] ["kvmd", "server"] kvmd_server_scheme []
      = ([], kvmd_server_resolved) := by
  simp [resolveChildren, optionStep, venvId, kvmd_server_scheme, kvmd_server_resolved,
    lookupVal, resolvedGet, alookup, truthy, parsePred_not_port]

theorem resolve_kvmd_auth :
    resolveChildren venvId [] ["kvmd", "auth"] kvmd_auth_scheme []
      = ([], kvmd_auth_resolved) := by
  simp [resolveChildren, optionStep, venvId, kvmd_auth_scheme, kvmd_auth_resolved,
    lookupVal, resolvedGet, alookup, truthy]

theorem resolve_kvmd_info :
    resolveChildren venvId [] ["kvmd", "info"] kvmd_info_scheme []
      = ([], kvmd_info_resolved) := by
  simp [resolveChildren, optionStep, venvId, kvmd_info_scheme, kvmd_info_resolved,
    lookupVal, resolvedGet, alookup, truthy]

theorem resolve_kvmd_hid :
    resolveChildren venvId [] ["kvmd", "hid"] kvmd_hid_scheme []
      = ([], kvmd_hid_resolved) := by
  simp [resolveChildren, optionStep, venvId, kvmd_hid_scheme, kvmd_hid_resolved,
    lookupVal, resolvedGet, alookup, truthy]

theorem resolve_kvmd_atx :
    resolveChildren venvId [] ["kvmd", "atx"] kvmd_atx_scheme []
      = ([], kvmd_atx_resolved) := by
  simp [resolveChildren, optionStep, venvId, kvmd_atx_scheme, kvmd_atx_resolved,
    lookupVal, resolvedGet, alookup, truthy, parsePred_enabled]

theorem resolve_kvmd_msd :
    resolveChildren venvId [] ["kvmd", "msd"] kvmd_msd_scheme []
      = ([], kvmd_msd_resolved) := by
  simp [resolveChildren, optionStep, venvId, kvmd_msd_scheme, kvmd_msd_resolved,
    lookupVal, resolvedGet, alookup, truthy, parsePred_enabled]

theorem resolve_kvmd_streamer :
    resolveChildren venvId [] ["kvmd", "streamer"] kvmd_streamer_scheme []
      = ([], kvmd_streamer_resolved) := by
  simp [resolveChildren, optionStep, venvId, kvmd_streamer_scheme, kvmd_streamer_resolved,
    lookupVal, resolvedGet, alookup, truthy, parsePred_not_port]

theorem resolve_kvmd :
    resolveChildren venvId [] ["kvmd"] kvmd_scheme [] = ([], kvmd_resolved) := by
  simp [resolveChildren, kvmd_scheme, kvmd_resolved, lookupVal,
    resolve_kvmd_server, resolve_kvmd_auth, resolve_kvmd_info, resolve_kvmd_hid,
    resolve_kvmd_atx, resolve_kvmd_msd, resolve_kvmd_streamer]

theorem scheme_kvmd_only :
    _get_config_scheme ["kvmd"] = [("kvmd", SchemeNode.sec kvmd_scheme)] := rfl

theorem mergeDicts_nil_nil : mergeDicts [] [] = [] := by simp [mergeDicts]

theorem resolve_top :
    resolveChildren venvId [] [] [("kvmd", SchemeNode.sec kvmd_scheme)] []
      = ([], [("kvmd", Resolved.sec kvmd_resolved)]) := by
  simp [resolveChildren, lookupVal, resolve_kvmd]

theorem demoPass1 :
    make_config venvId (mergeDicts [] []) (_get_config_scheme ["kvmd"])
      = Except.ok demoConfig := by
  rw [mergeDicts_nil_nil, scheme_kvmd_only, make_config, resolve_top]
  rfl

theorem demoInternalType :
    resolvedPath demoConfig ["kvmd", "auth", "internal_type"]
      = some (RawValue.str "htpasswd") := by
  simp [demoConfig, resolvedPath, alookup, kvmd_resolved, kvmd_auth_resolved]

theorem demoExternalType :
    resolvedPath demoConfig ["kvmd", "auth", "external_type"]
      = some (RawValue.str "") := by
  simp [demoConfig, resolvedPath, alookup, kvmd_resolved, kvmd_auth_resolved]

theorem init_config_selector_splice_witness :
    ("kvmd" ∈ (["kvmd"] : List String))
    ∧ schemePath (spliceScheme (_get_config_scheme ["kvmd"]) "kvmd" "auth" "internal"
          (SchemeNode.sec (get_plugin_options htpasswdPlugin))) ["kvmd", "auth", "internal"]
        = some (SchemeNode.sec (get_plugin_options htpasswdPlugin)) :=
  ⟨by simp,
   (init_config_selector_splice goodEnv venvId [] [] ["kvmd"] demoConfig
      (RawValue.str "htpasswd") (RawValue.str "") htpasswdPlugin
      (by simp) demoPass1 demoInternalType rfl demoExternalType).1⟩

/-- C5: pass 2 runs over the same merged raw mapping as pass 1 (only the
schema is extended between the passes), and the value `_init_config` returns
is the pass-2 resolution result; pass 1's tree is discarded once the selector
fields have been read. -/
theorem init_config_two_pass
    (env : ImportEnv) (venv : VEnv) (fileRaw overrideRaw : Entries)
    (sections : List String) (config : Resolved) (itype etype : RawValue)
    (icls : PluginClass)
    (hk : "kvmd" ∈ sections)
    (h1 : make_config venv (mergeDicts fileRaw overrideRaw) (_get_config_scheme sections)
            = Except.ok config)
    (hit : resolvedPath config ["kvmd", "auth", "internal_type"] = some itype)
    (hic : get_auth_service_class env (pyStr itype) = PluginResult.ok icls)
    (het : resolvedPath config ["kvmd", "auth", "external_type"] = some etype) :
    (truthy etype = false →
      _init_config env venv fileRaw sections overrideRaw
        = passOutcome (make_config venv (mergeDicts fileRaw overrideRaw)
            (spliceScheme (_get_config_scheme sections) "kvmd" "auth" "internal"
              (SchemeNode.sec (get_plugin_options icls))))
      ∧ (∀ config2 : Resolved,
          make_config venv (mergeDicts fileRaw overrideRaw)
              (spliceScheme (_get_config_scheme sections) "kvmd" "auth" "internal"
                (SchemeNode.sec (get_plugin_options icls)))
            = Except.ok config2 →
          _init_config env venv fileRaw sections overrideRaw = InitOutcome.ok config2))
    ∧ (∀ ecls : PluginClass, truthy etype = true →
        get_auth_service_class env (pyStr etype) = PluginResult.ok ecls →
        _init_config env venv fileRaw sections overrideRaw
          = passOutcome (make_config venv (mergeDicts fileRaw overrideRaw)
              (spliceScheme (spliceScheme (_get_config_scheme sections) "kvmd" "auth"
                  "internal" (SchemeNode.sec (get_plugin_options icls)))
                "kvmd" "auth" "external" (SchemeNode.sec (get_plugin_options ecls))))
        ∧ (∀ config2 : Resolved,
            make_config venv (mergeDicts fileRaw overrideRaw)
                (spliceScheme (spliceScheme (_get_config_scheme sections) "kvmd" "auth"
                    "internal" (SchemeNode.sec (get_plugin_options icls)))
                  "kvmd" "auth" "external" (SchemeNode.sec (get_plugin_options ecls)))
              = Except.ok config2 →
            _init_config env venv fileRaw sections overrideRaw = InitOutcome.ok config2)) := by
  constructor
  · intro hF
    have hE : _init_config env venv fileRaw sections overrideRaw
        = passOutcome (make_config venv (mergeDicts fileRaw overrideRaw)
            (spliceScheme (_get_config_scheme sections) "kvmd" "auth" "internal"
              (SchemeNode.sec (get_plugin_options icls)))) := by
      unfold _init_config
      simp only [h1, hk, if_true, hit, hic, het, hF, Bool.false_eq_true, if_false]
      cases make_config venv (mergeDicts fileRaw overrideRaw)
          (spliceScheme (_get_config_scheme sections) "kvmd" "auth" "internal"
            (SchemeNode.sec (get_plugin_options icls))) <;> rfl
    refine ⟨hE, ?_⟩
    intro config2 hc2
    rw [hE, hc2]
    rfl
  · intro ecls hT hec
    have hE : _init_config env venv fileRaw sections overrideRaw
        = passOutcome (make_config venv (mergeDicts fileRaw overrideRaw)
            (spliceScheme (spliceScheme (_get_config_scheme sections) "kvmd" "auth"
                "internal" (SchemeNode.sec (get_plugin_options icls)))
              "kvmd" "auth" "external" (SchemeNode.sec (get_plugin_options ecls)))) := by
      unfold _init_config
      simp only [h1, hk, if_true, hit, hic, het, hT, hec]
      cases make_config venv (mergeDicts fileRaw overrideRaw)
          (spliceScheme (spliceScheme (_get_config_scheme sections) "kvmd" "auth"
              "internal" (SchemeNode.sec (get_plugin_options icls)))
            "kvmd" "auth" "external" (SchemeNode.sec (get_plugin_options ecls))) <;> rfl
    refine ⟨hE, ?_⟩
    intro config2 hc2
    rw [hE, hc2]
    rfl

theorem init_config_two_pass_witness :
    truthy (RawValue.str "") = false
    ∧ _init_config goodEnv venvId [] ["kvmd"] []
        = passOutcome (make_config venvId (mergeDicts [] [])
            (spliceScheme (_get_config_scheme ["kvmd"]) "kvmd" "auth" "internal"
              (SchemeNode.sec (get_plugin_options htpasswdPlugin)))) :=
  ⟨rfl,
   ((init_config_two_pass goodEnv venvId [] [] ["kvmd"] demoConfig
      (RawValue.str "htpasswd") (RawValue.str "") htpasswdPlugin
      (by simp) demoPass1 demoInternalType rfl demoExternalType).1 rfl).1⟩

/-- C6: a plugin-registry failure while building the extended schema and a
`ConfigError` from either resolution pass each abort `_init_config` with
`SystemExit` carrying a configuration-error message, and every successfully
returned configuration is the complete result of one `make_config` pass, never
a partial tree. -/
theorem init_config_all_or_nothing
    (env : ImportEnv) (venv : VEnv) (fileRaw : Entries)
    (sections : List String) (overrideRaw : Entries) :
    (∀ errs, make_config venv (mergeDicts fileRaw overrideRaw)
          (_get_config_scheme sections) = Except.error errs →
        _init_config env venv fileRaw sections overrideRaw
          = InitOutcome.exit ("Config error: " ++ configErrorText errs))
    ∧ (∀ (config : Resolved) (itype : RawValue) (msg : String),
        "kvmd" ∈ sections →
        make_config venv (mergeDicts fileRaw overrideRaw)
            (_get_config_scheme sections) = Except.ok config →
        resolvedPath config ["kvmd", "auth", "internal_type"] = some itype →
        get_auth_service_class env (pyStr itype) = PluginResult.unknownPlugin msg →
        _init_config env venv fileRaw sections overrideRaw
          = InitOutcome.exit ("Config error: " ++ msg))
    ∧ (∀ (config : Resolved) (itype etype : RawValue) (icls : PluginClass) (msg : String),
        "kvmd" ∈ sections →
        make_config venv (mergeDicts fileRaw overrideRaw)
            (_get_config_scheme sections) = Except.ok config →
        resolvedPath config ["kvmd", "auth", "internal_type"] = some itype →
        get_auth_service_class env (pyStr itype) = PluginResult.ok icls →
        resolvedPath config ["kvmd", "auth", "external_type"] = some etype →
        truthy etype = true →
        get_auth_service_class env (pyStr etype) = PluginResult.unknownPlugin msg →
        _init_config env venv fileRaw sections overrideRaw
          = InitOutcome.exit ("Config error: " ++ msg))
    ∧ (∀ (config : Resolved) (itype etype : RawValue) (icls : PluginClass) errs,
        "kvmd" ∈ sections →
        make_config venv (mergeDicts fileRaw overrideRaw)
            (_get_config_scheme sections) = Except.ok config →
        resolvedPath config ["kvmd", "auth", "internal_type"] = some itype →
        get_auth_service_class env (pyStr itype) = PluginResult.ok icls →
        resolvedPath config ["kvmd", "auth", "external_type"] = some etype →
        truthy etype = false →
        make_config venv (mergeDicts fileRaw overrideRaw)
            (spliceScheme (_get_config_scheme sections) "kvmd" "auth" "internal"
              (SchemeNode.sec (get_plugin_options icls))) = Except.error errs →
        _init_config env venv fileRaw sections overrideRaw
          = InitOutcome.exit ("Config error: " ++ configErrorText errs))
    ∧ (∀ (r : Resolved), _init_config env venv fileRaw sections overrideRaw
          = InitOutcome.ok r →
        ∃ sch : Scheme,
          make_config venv (mergeDicts fileRaw overrideRaw) sch = Except.ok r) := by
  refine ⟨?_, ?_, ?_, ?_, ?_⟩
  · intro errs hmc
    unfold _init_config
    simp only [hmc]
    rfl
  · intro config itype msg hks hmc hrp hga
    unfold _init_config
    simp only [hmc, hks, if_true, hrp, hga]
    rfl
  · intro config itype etype icls msg hks hmc hrp hga hre htr hga2
    unfold _init_config
    simp only [hmc, hks, if_true, hrp, hga, hre, htr, hga2]
    rfl
  · intro config itype etype icls errs hks hmc hrp hga hre htr hm2
    unfold _init_config
    simp only [hmc, hks, if_true, hrp, hga, hre, htr, Bool.false_eq_true, if_false, hm2]
    rfl
  · intro r h
    simp only [_init_config] at h
    cases hmc : make_config venv (mergeDicts fileRaw overrideRaw)
        (_get_config_scheme sections) with
    | error errs =>
      simp only [hmc] at h
      exact absurd h (by simp [sysExitMsg])
    | ok config =>
      simp only [hmc] at h
      by_cases hks : "kvmd" ∈ sections
      · rw [if_pos hks] at h
        cases hrp : resolvedPath config ["kvmd", "auth", "internal_type"] with
        | none =>
          simp only [hrp] at h
          exact absurd h (by simp)
        | some itype =>
          simp only [hrp] at h
          cases hga : get_auth_service_class env (pyStr itype) with
          | unknownPlugin msg =>
            simp only [hga] at h
            exact absurd h (by simp [sysExitMsg])
          | attrError a =>
            simp only [hga] at h
            exact absurd h (by simp)
          | ok icls =>
            simp only [hga] at h
            cases hre : resolvedPath config ["kvmd", "auth", "external_type"] with
            | none =>
              simp only [hre] at h
              exact absurd h (by simp)
            | some etype =>
              simp only [hre] at h
              cases htr : truthy etype with
              | false =>
                simp only [htr, Bool.false_eq_true, if_false] at h
                cases hm2 : make_config venv (mergeDicts fileRaw overrideRaw)
                    (spliceScheme (_get_config_scheme sections) "kvmd" "auth" "internal"
                      (SchemeNode.sec (get_plugin_options icls))) with
                | error errs =>
                  simp only [hm2] at h
                  exact absurd h (by simp [sysExitMsg])
                | ok c2 =>
                  simp only [hm2] at h
                  injection h with hr
                  exact ⟨_, hr ▸ hm2⟩
              | true =>
                simp only [htr, if_true] at h
                cases hga2 : get_auth_service_class env (pyStr etype) with
                | unknownPlugin msg =>
                  simp only [hga2] at h
                  exact absurd h (by simp [sysExitMsg])
                | attrError a =>
                  simp only [hga2] at h
                  exact absurd h (by simp)
                | ok ecls =>
                  simp only [hga2] at h
                  cases hm2 : make_config venv (mergeDicts fileRaw overrideRaw)
                      (spliceScheme (spliceScheme (_get_config_scheme sections) "kvmd" "auth"
                          "internal" (SchemeNode.sec (get_plugin_options icls)))
                        "kvmd" "auth" "external" (SchemeNode.sec (get_plugin_options ecls))) with
                  | error errs =>
                    simp only [hm2] at h
                    exact absurd h (by simp [sysExitMsg])
                  | ok c2 =>
                    simp only [hm2] at h
                    injection h with hr
                    exact ⟨_, hr ▸ hm2⟩
      · rw [if_neg hks] at h
        injection h with hr
        exact ⟨_, hr ▸ hmc⟩

theorem init_config_all_or_nothing_witness :
    get_auth_service_class brokenEnv (pyStr (RawValue.str "htpasswd"))
      = PluginResult.unknownPlugin (unknownPluginMessage "auth" "htpasswd")
    ∧ _init_config brokenEnv venvId [] ["kvmd"] []
      = InitOutcome.exit ("Config error: " ++ unknownPluginMessage "auth" "htpasswd") :=
  ⟨rfl,
   (init_config_all_or_nothing brokenEnv venvId [] ["kvmd"] []).2.1 demoConfig
     (RawValue.str "htpasswd") (unknownPluginMessage "auth" "htpasswd")
     (by simp) demoPass1 demoInternalType rfl⟩

end Kvmd
